import Mathlib

/-!
Verification of the analytical core of `analizador_optimizado.py`
(repository `analizador-ai-pape`).

The Python source is shallowly embedded: the flat pandas table becomes a
list of `Person` records together with the list of social-program columns
present in the schema; every analysis routine becomes a pure Lean function
mirroring the corresponding method body.  String-valued booleans keep the
literal `"yes"` / `"no"` convention of the dataset.  Python `round(x, k)`
is modelled on `ℚ` as rounding to the nearest multiple of `10^(-k)`, and
`str.lower()` as character-wise ASCII lowering.
-/

namespace Analizador

/-! ## String utilities

`subOfChars needle hay` models Python's substring operator `needle in hay`
on the underlying character lists. -/

/-- Does `needle` occur as a prefix of `hay`? -/
def prefixOfChars : List Char → List Char → Bool
  | [], _ => true
  | _ :: _, [] => false
  | a :: as, b :: bs => a == b && prefixOfChars as bs

/-- Does `needle` occur contiguously inside `hay`?  (Python `needle in hay`.) -/
def subOfChars (needle : List Char) : List Char → Bool
  | [] => needle.isEmpty
  | b :: bs => prefixOfChars needle (b :: bs) || subOfChars needle bs

/-- Character-wise ASCII lowering, modelling `str.lower()`. -/
def lowerStr (s : String) : String := ⟨s.data.map Char.toLower⟩

/-- Case-insensitive substring test, modelling
`Series.str.contains(pat, case=False)` on a single cell. -/
def containsCI (hay pat : String) : Bool :=
  subOfChars (lowerStr pat).data (lowerStr hay).data

/-! ## Data model

One row of the flat table produced by the (out-of-scope) ingestion step.
Deprivation and eligibility columns hold the literal strings `"yes"`/`"no"`.
The per-program eligibility columns `es_elegible_<p>` are modelled by the
association list `elegibilidades` (program name ↦ cell value). -/

structure Person where
  id_hogar : Nat
  edad_persona : Int
  sexo_persona : String
  colonia : String
  ageb : String
  ubicacion : String
  presencia_carencia_salud_persona : String
  presencia_rezago_educativo_persona : String
  presencia_carencia_seguridad_social_persona : String
  recibe_apoyos_sociales : String := "no"
  elegibilidades : List (String × String) := []
deriving DecidableEq

/-- Value of the column `es_elegible_<prog>` for this row
(`"no"` is only the formal default; the column is consulted only when it
exists in the schema). -/
def Person.elegible (p : Person) (prog : String) : String :=
  (p.elegibilidades.lookup prog).getD "no"

/-- The flat table: the program columns present in the schema (as program
names, i.e. column `es_elegible_<p>` exists iff `p ∈ programas`) together
with the rows. -/
structure Table where
  programas : List String
  rows : List Person
deriving DecidableEq

/-! ## Criteria sets

The criteria dictionary accumulated by the Query Translator and consumed
by `DelimitadorPoblacional.aplicar_filtros`.  A missing dictionary key is
`none` / `false`; the Python code only ever stores truthy values under
these keys. -/

structure Criterios where
  rango_edad : Option (Int × Int) := none
  sexo : Option String := none
  ubicacion : Option String := none
  carencia_salud : Bool := false
  carencia_educacion : Bool := false
  carencia_seguridad_social : Bool := false
  programa_social : Option String := none
  segmentacion_geografica : Option String := none
  ordenamiento : Option String := none
deriving DecidableEq

/-- Is the criteria dictionary empty (no key present)? -/
def Criterios.vacio (c : Criterios) : Bool :=
  c.rango_edad.isNone && c.sexo.isNone && c.ubicacion.isNone &&
  !c.carencia_salud && !c.carencia_educacion && !c.carencia_seguridad_social &&
  c.programa_social.isNone && c.segmentacion_geografica.isNone &&
  c.ordenamiento.isNone

/-! ## Population Filter: `DelimitadorPoblacional.aplicar_filtros` -/

/-- `sexo_map.get(x, x)` from `aplicar_filtros`. -/
def sexoCanonico (s : String) : String :=
  if s = "M" then "Mujer" else if s = "H" then "Hombre" else s

/-- The location mask: the substring appears (case-insensitively) in the
`colonia`, `ageb` or `ubicacion` field. -/
def mascaraUbicacion (u : String) (p : Person) : Bool :=
  containsCI p.colonia u || containsCI p.ageb u || containsCI p.ubicacion u

/-- The list `condiciones` built by `aplicar_filtros`: one boolean mask per
present criterion.  A requested program contributes a condition only when
its column exists in the schema. -/
def condiciones (programas : List String) (c : Criterios) :
    List (Person → Bool) :=
  (match c.rango_edad with
   | some (lo, hi) => [fun p => decide (lo ≤ p.edad_persona) &&
       decide (p.edad_persona ≤ hi)]
   | none => []) ++
  (match c.sexo with
   | some s => [fun p => p.sexo_persona == sexoCanonico s]
   | none => []) ++
  (match c.ubicacion with
   | some u => [fun p => mascaraUbicacion u p]
   | none => []) ++
  (if c.carencia_salud then
    ([fun p => p.presencia_carencia_salud_persona == "yes"] :
      List (Person → Bool)) else []) ++
  (if c.carencia_educacion then
    ([fun p => p.presencia_rezago_educativo_persona == "yes"] :
      List (Person → Bool)) else []) ++
  (if c.carencia_seguridad_social then
    ([fun p => p.presencia_carencia_seguridad_social_persona == "yes"] :
      List (Person → Bool)) else []) ++
  (match c.programa_social with
   | some prog =>
      if programas.contains prog
      then [fun p => p.elegible prog == "yes"] else []
   | none => [])

/-- `DelimitadorPoblacional.aplicar_filtros`: AND of all masks; with no
conditions the table is returned unchanged. -/
def aplicarFiltros (t : Table) (c : Criterios) : List Person :=
  let conds := condiciones t.programas c
  if conds.isEmpty then t.rows
  else t.rows.filter (fun p => conds.all (fun f => f p))

/-! ## Numeric helpers -/

/-- Python `round(x, 1)` modelled on `ℚ`: round to the nearest tenth. -/
def round1 (q : ℚ) : ℚ := (round (q * 10) : ℤ) / 10

/-- Python `round(x, 2)` modelled on `ℚ`: round to the nearest hundredth. -/
def round2 (q : ℚ) : ℚ := (round (q * 100) : ℤ) / 100

/-- `numerator / denominator * 100` as an exact rational. -/
def tasa (num den : Nat) : ℚ := (num : ℚ) / (den : ℚ) * 100

/-- Count of distinct values in a list (pandas `nunique`). -/
def nunique (l : List Nat) : Nat := l.dedup.length

/-- `value_counts` index: the distinct values of a column ordered by
descending count (stable over first-occurrence order). -/
def insertByCount (cnt : String → Nat) (x : String) :
    List String → List String
  | [] => [x]
  | y :: ys =>
      if cnt x ≥ cnt y then x :: y :: ys else y :: insertByCount cnt x ys

/-- Stable descending sort of column values by their count. -/
def sortByCount (cnt : String → Nat) : List String → List String
  | [] => []
  | x :: xs => insertByCount cnt x (sortByCount cnt xs)

/-- Number of occurrences of `v` in the column `l`. -/
def countOf (l : List String) (v : String) : Nat :=
  (l.filter (fun w => w == v)).length

/-- `Series.value_counts().index` for a string column. -/
def valueCountsIndex (l : List String) : List String :=
  sortByCount (countOf l) l.dedup

/-- `Series.value_counts()` as an association list (value, count), in
descending-count order. -/
def valueCounts (l : List String) : List (String × Nat) :=
  (valueCountsIndex l).map (fun v => (v, countOf l v))

/-! ## Demographic Profiler: `AnalizadorDemografico.generar_perfil_segmento` -/

/-- Mean of the ages of a segment, as an exact rational. -/
def mediaEdad (rows : List Person) : ℚ :=
  ((rows.map (fun p => (p.edad_persona : ℚ))).sum) / (rows.length : ℚ)

/-- The profile dictionary returned by `generar_perfil_segmento` for a
non-empty segment. -/
structure Perfil where
  total_personas : Nat
  edad_promedio : ℚ
  distribucion_sexo : List (String × Nat)
  hogares_afectados : Nat
  personas_por_hogar : ℚ
deriving DecidableEq

/-- `generar_perfil_segmento`: an empty segment yields the empty dictionary
(`none`); otherwise the profile is computed.  `groupby('id_hogar').size()`
has mean `len(segment) / nunique(id_hogar)`. -/
def generarPerfilSegmento (rows : List Person) : Option Perfil :=
  if rows.length = 0 then none
  else some
    { total_personas := rows.length
      edad_promedio := round1 (mediaEdad rows)
      distribucion_sexo := valueCounts (rows.map (·.sexo_persona))
      hogares_afectados := nunique (rows.map (·.id_hogar))
      personas_por_hogar :=
        round2 ((rows.length : ℚ) / (nunique (rows.map (·.id_hogar)) : ℚ)) }

/-! ## `AnalizadorProgramasSociales._aplicar_filtros_basicos` -/

/-- The deprivation-name → column map used by the basic filters; `none`
when the name is not one of the three known deprivations (in which case no
filter is applied). -/
def carenciaColumna (carencia : String) (p : Person) : Option String :=
  if carencia = "salud" then some p.presencia_carencia_salud_persona
  else if carencia = "educacion" then some p.presencia_rezago_educativo_persona
  else if carencia = "seguridad_social" then
    some p.presencia_carencia_seguridad_social_persona
  else none

/-- `_aplicar_filtros_basicos`: sequential age / sex / location /
deprivation filters over the full table. -/
def aplicarFiltrosBasicos (t : Table) (rango_edad : Option (Int × Int))
    (ubicacion : Option String) (sexo : Option String)
    (carencia : Option String) : List Person :=
  let df1 := match rango_edad with
    | some (lo, hi) => t.rows.filter (fun p =>
        decide (lo ≤ p.edad_persona) && decide (p.edad_persona ≤ hi))
    | none => t.rows
  let df2 := match sexo with
    | some s => df1.filter (fun p => p.sexo_persona == sexoCanonico s)
    | none => df1
  let df3 := match ubicacion with
    | some u => df2.filter (mascaraUbicacion u)
    | none => df2
  match carencia with
  | some car => df3.filter (fun p =>
      match carenciaColumna car p with
      | some v => v == "yes"
      | none => true)
  | none => df3

/-! ## Eligibility analysis: `analizar_elegibilidad_programa` -/

/-- `_obtener_ranking_colonia`: position of the supplied location among
the `value_counts` index of the `colonia` column (exact label match);
`none` models the empty dictionary returned when the lookup fails. -/
def obtenerRankingColonia (t : Table) (ubicacion : String) :
    Option (Nat × Nat × Nat) :=
  let idx := valueCountsIndex (t.rows.map (·.colonia))
  match idx.findIdx? (fun c => c == ubicacion) with
  | some i => some (i + 1, idx.length,
      countOf (t.rows.map (·.colonia)) ubicacion)
  | none => none

/-- Section 4 of the eligibility report (`_obtener_contexto_colonia`),
restricted to the fields relevant here. -/
structure ContextoColonia where
  poblacion_total : Nat
  hogares_totales : Nat
  ranking_colonias : Option (Nat × Nat × Nat)
deriving DecidableEq

/-- `_obtener_contexto_colonia` (the `caracteristicas` sub-report and the
area mean age are omitted). -/
def obtenerContextoColonia (t : Table) (ubicacion : String) :
    ContextoColonia :=
  let dfColonia := t.rows.filter (mascaraUbicacion ubicacion)
  { poblacion_total := dfColonia.length
    hogares_totales := nunique (dfColonia.map (·.id_hogar))
    ranking_colonias := obtenerRankingColonia t ubicacion }

/-- Section 1 of the eligibility report. -/
structure PoblacionElegible where
  total_elegibles : Nat
  tasa_elegibilidad : ℚ
  hogares_afectados : Nat
  porcentaje_del_total_estudio : ℚ
deriving DecidableEq

/-- The successful eligibility report (sections 2, 3 and 5 carry no claim
here and are reduced to the eligible-age summary). -/
structure ReporteElegibilidad where
  programa : String
  seccion_1_poblacion_elegible : PoblacionElegible
  edad_promedio_elegibles : ℚ
  seccion_4_contexto_colonia : Option ContextoColonia
deriving DecidableEq

/-- Return value of `analizar_elegibilidad_programa`: either one of the
two error dictionaries (each carrying the `"error"` key) or the report. -/
inductive ResultadoElegibilidad where
  /-- `{"error": "Programa '<p>' no encontrado", "programas_disponibles":
  …, "columnas_reales": …}` -/
  | errorProgramaNoEncontrado (programa : String)
      (programas_disponibles : List String) (columnas_reales : List String)
  /-- `{"error": "No hay personas que cumplan los criterios especificados"}` -/
  | errorSinPersonas
  /-- the five-section report -/
  | ok (r : ReporteElegibilidad)
deriving DecidableEq

/-- Does the returned dictionary contain the `"error"` key? -/
def ResultadoElegibilidad.esError : ResultadoElegibilidad → Bool
  | .errorProgramaNoEncontrado _ _ _ => true
  | .errorSinPersonas => true
  | .ok _ => false

/-- `analizar_elegibilidad_programa`. -/
def analizarElegibilidadPrograma (t : Table) (programa : String)
    (rango_edad : Option (Int × Int) := none)
    (ubicacion : Option String := none) (sexo : Option String := none)
    (carencia : Option String := none) : ResultadoElegibilidad :=
  if t.programas.contains programa = false then
    .errorProgramaNoEncontrado programa t.programas
      (t.programas.map (fun p => "es_elegible_" ++ p))
  else
    let dfFiltrado := aplicarFiltrosBasicos t rango_edad ubicacion sexo carencia
    if dfFiltrado.length = 0 then .errorSinPersonas
    else
      let dfElegibles := dfFiltrado.filter (fun p => p.elegible programa == "yes")
      let totalElegibles := dfElegibles.length
      let totalPoblacion := dfFiltrado.length
      .ok
        { programa := programa
          seccion_1_poblacion_elegible :=
            { total_elegibles := totalElegibles
              tasa_elegibilidad :=
                if totalPoblacion > 0
                then round2 (tasa totalElegibles totalPoblacion) else 0
              hogares_afectados :=
                if totalElegibles > 0
                then nunique (dfElegibles.map (·.id_hogar)) else 0
              porcentaje_del_total_estudio :=
                if t.rows.length > 0
                then round2 (tasa totalElegibles t.rows.length) else 0 }
          edad_promedio_elegibles :=
            if totalElegibles > 0 then round1 (mediaEdad dfElegibles) else 0
          seccion_4_contexto_colonia :=
            ubicacion.map (obtenerContextoColonia t) }

/-! ## Multi-deprivation intensity: `analizar_intensidad_carencias` -/

/-- `total_carencias` for one row: how many of the three deprivation flags
equal `"yes"`. -/
def totalCarencias (p : Person) : Nat :=
  (if p.presencia_carencia_salud_persona = "yes" then 1 else 0) +
  (if p.presencia_rezago_educativo_persona = "yes" then 1 else 0) +
  (if p.presencia_carencia_seguridad_social_persona = "yes" then 1 else 0)

/-- One cell of the intensity distribution: count and rounded percentage. -/
structure CeldaIntensidad where
  cantidad : Nat
  porcentaje : ℚ
deriving DecidableEq

/-- Result of `analizar_intensidad_carencias`. -/
structure ReporteIntensidad where
  sin_carencias : CeldaIntensidad
  una_carencia : CeldaIntensidad
  dos_carencias : CeldaIntensidad
  tres_carencias : CeldaIntensidad
  vulnerabilidad_extrema_total : Nat
  vulnerabilidad_extrema_porcentaje : ℚ
deriving DecidableEq

/-- The age/location pre-filter of `analizar_intensidad_carencias`. -/
def filtrarIntensidad (t : Table) (rango_edad : Option (Int × Int))
    (ubicacion : Option String) : List Person :=
  let df1 := match rango_edad with
    | some (lo, hi) => t.rows.filter (fun p =>
        decide (lo ≤ p.edad_persona) && decide (p.edad_persona ≤ hi))
    | none => t.rows
  match ubicacion with
  | some u => df1.filter (mascaraUbicacion u)
  | none => df1

/-- Count of rows of the subset with exactly `n` simultaneous deprivations. -/
def cuentaIntensidad (rows : List Person) (n : Nat) : Nat :=
  (rows.filter (fun p => totalCarencias p == n)).length

/-- A cell of the distribution: `round(cnt / total * 100, 2)`, with the
`0.0` guard for a zero denominator. -/
def celdaIntensidad (cnt total : Nat) : CeldaIntensidad :=
  { cantidad := cnt
    porcentaje := if total > 0 then round2 (tasa cnt total) else 0 }

/-- `analizar_intensidad_carencias`. -/
def analizarIntensidadCarencias (t : Table)
    (rango_edad : Option (Int × Int) := none)
    (ubicacion : Option String := none) : ReporteIntensidad :=
  let dfAnalisis := filtrarIntensidad t rango_edad ubicacion
  let total := dfAnalisis.length
  let c3 := cuentaIntensidad dfAnalisis 3
  { sin_carencias := celdaIntensidad (cuentaIntensidad dfAnalisis 0) total
    una_carencia := celdaIntensidad (cuentaIntensidad dfAnalisis 1) total
    dos_carencias := celdaIntensidad (cuentaIntensidad dfAnalisis 2) total
    tres_carencias := celdaIntensidad c3 total
    vulnerabilidad_extrema_total := c3
    vulnerabilidad_extrema_porcentaje :=
      if total > 0 then round2 (tasa c3 total) else 0 }

/-! ## Age binning: `_agrupar_edades` and the cross-tabulation totals -/

/-- `pd.cut(x, bins, labels, right=False)` for one value: the half-open
intervals `[bins i, bins (i+1))`; values outside every interval become
`NaN` (`none`). -/
def cutRightFalse (e : Int) : List Int → List String → Option String
  | b1 :: b2 :: bs, l :: ls =>
      if b1 ≤ e ∧ e < b2 then some l else cutRightFalse e (b2 :: bs) ls
  | _, _ => none

/-- The fixed age bins of `_agrupar_edades`. -/
def binsEdad : List Int := [0, 18, 30, 45, 60, 75, 120]

/-- The fixed age-bin labels of `_agrupar_edades`. -/
def labelsEdad : List String :=
  ["0-17 años", "18-29 años", "30-44 años", "45-59 años", "60-74 años",
   "75+ años"]

/-- The age group assigned to one age by `_agrupar_edades`. -/
def agruparEdad (e : Int) : Option String := cutRightFalse e binsEdad labelsEdad

/-- Key pair of one row for the cross-tabulation `edad_persona ×
sexo_persona` after `_agrupar_edades`: `pd.crosstab` drops rows whose
(binned) age is `NaN`. -/
def claveEdadSexo (p : Person) : Option (String × String) :=
  (agruparEdad p.edad_persona).map (fun g => (g, p.sexo_persona))

/-- Grand total (`Total`,`Total` margin) of the `edad_persona ×
sexo_persona` cross-tabulation with age binning: the number of rows whose
keys are both non-`NaN`. -/
def tablaCruzadaEdadSexoTotal (rows : List Person) : Nat :=
  (rows.filterMap claveEdadSexo).length

/-! ## Term Mapper: `_mapear_grupos_poblacionales` -/

/-- A typed directive of the term dictionary (`{'tipo': …, 'valor': …}`);
`columna` records the optional `'filtro'` value. -/
inductive Mapeo where
  | rangoEdad (lo hi : Int)
  | sexoDir (valor : String)
  | columna (valor : String) (filtro : Option String)
  | multipleCarencias (valor : Nat)
  | programa (valor : String)
  | conceptoElegibilidad (valor : String)
deriving DecidableEq

set_option maxHeartbeats 1000000 in
/-- The full phrase dictionary of `_mapear_grupos_poblacionales`, in its
insertion order. -/
def mapeoGrupos : List (String × Mapeo) :=
  [("niños", .rangoEdad 0 12),
   ("niñas", .rangoEdad 0 12),
   ("infantes", .rangoEdad 0 3),
   ("bebés", .rangoEdad 0 3),
   ("adolescentes", .rangoEdad 13 18),
   ("jóvenes", .rangoEdad 19 30),
   ("adultos", .rangoEdad 31 50),
   ("adultos mayores", .rangoEdad 65 100),
   ("mayores de 65", .rangoEdad 65 100),
   ("tercera edad", .rangoEdad 65 100),
   ("adulto mayor", .rangoEdad 65 100),
   ("mujeres", .sexoDir "Mujer"),
   ("hombres", .sexoDir "Hombre"),
   ("mujer", .sexoDir "Mujer"),
   ("hombre", .sexoDir "Hombre"),
   ("carencia de salud", .columna "presencia_carencia_salud_persona" (some "yes")),
   ("carencia salud", .columna "presencia_carencia_salud_persona" (some "yes")),
   ("salud", .columna "presencia_carencia_salud_persona" (some "yes")),
   ("sin salud", .columna "presencia_carencia_salud_persona" (some "yes")),
   ("acceso a salud", .columna "presencia_carencia_salud_persona" (some "yes")),
   ("carencia de acceso a salud", .columna "presencia_carencia_salud_persona" (some "yes")),
   ("carencia acceso a salud", .columna "presencia_carencia_salud_persona" (some "yes")),
   ("sin cobertura de salud", .columna "presencia_carencia_salud_persona" (some "yes")),
   ("sin servicios médicos", .columna "presencia_carencia_salud_persona" (some "yes")),
   ("carencia de educación", .columna "presencia_rezago_educativo_persona" (some "yes")),
   ("carencia educación", .columna "presencia_rezago_educativo_persona" (some "yes")),
   ("rezago educativo", .columna "presencia_rezago_educativo_persona" (some "yes")),
   ("educación", .columna "presencia_rezago_educativo_persona" (some "yes")),
   ("sin educación", .columna "presencia_rezago_educativo_persona" (some "yes")),
   ("sin asistir a la escuela", .columna "presencia_rezago_educativo_persona" (some "yes")),
   ("no asiste a la escuela", .columna "presencia_rezago_educativo_persona" (some "yes")),
   ("inasistencia escolar", .columna "presencia_rezago_educativo_persona" (some "yes")),
   ("carencia de seguridad social", .columna "presencia_carencia_seguridad_social_persona" (some "yes")),
   ("carencia seguridad social", .columna "presencia_carencia_seguridad_social_persona" (some "yes")),
   ("seguridad social", .columna "presencia_carencia_seguridad_social_persona" (some "yes")),
   ("sin seguridad social", .columna "presencia_carencia_seguridad_social_persona" (some "yes")),
   ("carencia social", .columna "presencia_carencia_seguridad_social_persona" (some "yes")),
   ("sin afiliación", .columna "presencia_carencia_seguridad_social_persona" (some "yes")),
   ("sin acceso a seguridad social", .columna "presencia_carencia_seguridad_social_persona" (some "yes")),
   ("no afiliadas", .columna "presencia_carencia_seguridad_social_persona" (some "yes")),
   ("carencia máxima", .multipleCarencias 3),
   ("múltiples carencias", .multipleCarencias 3),
   ("carencia extrema", .multipleCarencias 3),
   ("vulnerabilidad extrema", .multipleCarencias 3),
   ("mayor carencia", .multipleCarencias 3),
   ("pobreza extrema", .multipleCarencias 3),
   ("más vulnerables", .multipleCarencias 3),
   ("edad", .columna "edad_persona" none),
   ("años", .columna "edad_persona" none),
   ("parentesco", .columna "parentesco_persona" none),
   ("tipo de persona", .columna "tipo_persona" none),
   ("apoyos sociales", .columna "recibe_apoyos_sociales" none),
   ("recibe apoyos", .columna "recibe_apoyos_sociales" none),
   ("beneficiario", .columna "recibe_apoyos_sociales" none),
   ("pensión adultos mayores", .programa "pension_adultos_mayores"),
   ("pensión mujeres", .programa "pension_mujeres_bienestar"),
   ("mujeres bienestar", .programa "pension_mujeres_bienestar"),
   ("becas", .programa "beca_rita_cetina"),
   ("beca rita cetina", .programa "beca_rita_cetina"),
   ("benito juárez", .programa "beca_benito_juarez"),
   ("jóvenes escribiendo futuro", .programa "jovenes_escribiendo_el_futuro"),
   ("jóvenes construyendo futuro", .programa "jovenes_construyendo_futuro"),
   ("desde la cuna", .programa "desde_la_cuna"),
   ("mi beca para empezar", .programa "mi_beca_para_empezar"),
   ("imss bienestar", .programa "imss_bienestar"),
   ("inea", .programa "inea"),
   ("leche bienestar", .programa "leche_bienestar"),
   ("seguro desempleo", .programa "seguro_desempleo_cdmx"),
   ("ingreso ciudadano", .programa "ingreso_ciudadano_universal"),
   ("colonia", .columna "colonia" none),
   ("colonias", .columna "colonia" none),
   ("ageb", .columna "ageb" none),
   ("agebs", .columna "ageb" none),
   ("manzana", .columna "manzana" none),
   ("manzanas", .columna "manzana" none),
   ("ubicación", .columna "ubicacion" none),
   ("zona", .columna "ubicacion" none),
   ("localidad", .columna "ubicacion" none),
   ("elegibles", .conceptoElegibilidad "elegibilidad"),
   ("elegible", .conceptoElegibilidad "elegibilidad"),
   ("pueden recibir", .conceptoElegibilidad "elegibilidad"),
   ("califican para", .conceptoElegibilidad "elegibilidad"),
   ("personas que pueden", .conceptoElegibilidad "elegibilidad")]

/-! ## Query Translator: `traducir_consulta_natural` -/

/-- Stable insertion of one dictionary entry into a list already sorted by
descending phrase length. -/
def insertByLen (x : String × Mapeo) :
    List (String × Mapeo) → List (String × Mapeo)
  | [] => [x]
  | y :: ys =>
      if x.1.length ≥ y.1.length then x :: y :: ys else y :: insertByLen x ys

/-- `sorted(mapeo.keys(), key=len, reverse=True)`: stable descending sort
by phrase length. -/
def sortPorLongitud : List (String × Mapeo) → List (String × Mapeo)
  | [] => []
  | x :: xs => insertByLen x (sortPorLongitud xs)

/-- The evaluation order of the translator loop. -/
def terminosOrdenados : List (String × Mapeo) := sortPorLongitud mapeoGrupos

/-- The accumulator of the translator loop: the criteria dictionary, the
`variables_detectadas` list and the `terminos_mapeados` entries. -/
structure EstadoTraduccion where
  criterios : Criterios
  variables_detectadas : List String
  terminos : List (String × Mapeo)
deriving DecidableEq

/-- The loop body of `traducir_consulta_natural` for one matched phrase:
the age range is written only when absent, while a sex or program phrase
overwrites the criterion unconditionally; a deprivation `columna` phrase
sets the deprivation flag chosen by substring tests on the phrase itself;
`multiple_carencias` and `concepto_elegibilidad` directives touch no
criterion. -/
def aplicarMapeo (st : EstadoTraduccion) (termino : String) (m : Mapeo) :
    EstadoTraduccion :=
  let st := { st with terminos := st.terminos ++ [(termino, m)] }
  match m with
  | .rangoEdad lo hi =>
      match st.criterios.rango_edad with
      | none =>
          { st with
            criterios := { st.criterios with rango_edad := some (lo, hi) }
            variables_detectadas := st.variables_detectadas ++ [s!"rango_edad_{lo}_{hi}"] }
      | some _ => st
  | .sexoDir v =>
      { st with criterios := { st.criterios with sexo := some v }
                variables_detectadas := st.variables_detectadas ++ ["sexo_persona"] }
  | .columna val filtro =>
      let st := { st with variables_detectadas := st.variables_detectadas ++ [val] }
      if filtro.isSome then
        if subOfChars "salud".data termino.data then
          { st with criterios := { st.criterios with carencia_salud := true } }
        else if subOfChars "educación".data termino.data ||
            subOfChars "educacion".data termino.data ||
            subOfChars "rezago".data termino.data then
          { st with criterios :=
              { st.criterios with carencia_educacion := true } }
        else if subOfChars "seguridad_social".data termino.data ||
            subOfChars "social".data termino.data then
          { st with criterios :=
              { st.criterios with carencia_seguridad_social := true } }
        else st
      else st
  | .multipleCarencias _ => st
  | .programa v =>
      { st with
        criterios := { st.criterios with programa_social := some v }
        variables_detectadas := st.variables_detectadas ++ ["es_elegible_" ++ v] }
  | .conceptoElegibilidad _ => st

/-- Translation result (`list(set(...))` on the detected variables is
modelled as first-occurrence deduplication; Python's set order is
arbitrary). -/
structure Traduccion where
  consulta_original : String
  criterios_demograficos : Criterios
  variables_detectadas : List String
  terminos_mapeados : List (String × Mapeo)
  estado : String
deriving DecidableEq

/-- `traducir_consulta_natural`: lowercase the query, scan every
dictionary phrase in descending-length order, then detect geographic
segmentation and sort direction. -/
def traducirConsultaNatural (consulta : String) : Traduccion :=
  let texto := lowerStr consulta
  let st := terminosOrdenados.foldl
    (fun st tm =>
      if subOfChars tm.1.data texto.data then aplicarMapeo st tm.1 tm.2
      else st)
    { criterios := {}, variables_detectadas := [], terminos := [] }
  let c1 :=
    if (["por ageb", "por colonia", "por ubicación", "por zona"].any
        (fun g => subOfChars g.data texto.data)) then
      if subOfChars "ageb".data texto.data then
        { st.criterios with segmentacion_geografica := some "ageb" }
      else if subOfChars "colonia".data texto.data then
        { st.criterios with segmentacion_geografica := some "colonia" }
      else if subOfChars "ubicación".data texto.data ||
          subOfChars "zona".data texto.data then
        { st.criterios with segmentacion_geografica := some "ubicacion" }
      else st.criterios
    else st.criterios
  let c2 :=
    if (["mayor", "más", "top", "principal"].any
        (fun o => subOfChars o.data texto.data)) then
      { c1 with ordenamiento := some "descendente" }
    else if (["menor", "menos"].any
        (fun o => subOfChars o.data texto.data)) then
      { c1 with ordenamiento := some "ascendente" }
    else c1
  { consulta_original := consulta
    criterios_demograficos := c2
    variables_detectadas := st.variables_detectadas.eraseDups
    terminos_mapeados := st.terminos
    estado := if c2.vacio then "sin_criterios_detectados" else "éxito" }

/-! ## Auxiliary checks and concrete example data -/

/-- Boolean check that a dictionary-entry list is ordered by descending
phrase length. -/
def ordenadoPorLongitud : List (String × Mapeo) → Bool
  | [] => true
  | [_] => true
  | x :: y :: rest =>
      (decide (y.1.length ≤ x.1.length)) && ordenadoPorLongitud (y :: rest)

/-- The program-type phrases of the dictionary matching a query, in
evaluation order, with their program values. -/
def programasCoincidentes (consulta : String) : List String :=
  (terminosOrdenados.filter
    (fun tm => subOfChars tm.1.data (lowerStr consulta).data)).filterMap
    (fun tm => match tm.2 with | .programa v => some v | _ => none)

/-- Example row: a 30-year-old woman in colonia `A`, eligible for the
adult-pension program, with health and social-security deprivations. -/
def persona1 : Person :=
  { id_hogar := 1
    edad_persona := 30
    sexo_persona := "Mujer"
    colonia := "A"
    ageb := "G1"
    ubicacion := "Norte"
    presencia_carencia_salud_persona := "yes"
    presencia_rezago_educativo_persona := "no"
    presencia_carencia_seguridad_social_persona := "yes"
    elegibilidades := [("pension_adultos_mayores", "yes")] }

/-- Example row: a 70-year-old man in colonia `B`, no deprivations. -/
def persona2 : Person :=
  { id_hogar := 2
    edad_persona := 70
    sexo_persona := "Hombre"
    colonia := "B"
    ageb := "G2"
    ubicacion := "Sur"
    presencia_carencia_salud_persona := "no"
    presencia_rezago_educativo_persona := "no"
    presencia_carencia_seguridad_social_persona := "no"
    elegibilidades := [("pension_adultos_mayores", "no")] }

/-- Example row aged exactly 120. -/
def persona120 : Person :=
  { id_hogar := 3
    edad_persona := 120
    sexo_persona := "Mujer"
    colonia := "A"
    ageb := "G1"
    ubicacion := "Norte"
    presencia_carencia_salud_persona := "no"
    presencia_rezago_educativo_persona := "no"
    presencia_carencia_seguridad_social_persona := "no" }

/-- Example table whose schema has one program column,
`es_elegible_pension_adultos_mayores`. -/
def tablaEjemplo : Table :=
  { programas := ["pension_adultos_mayores"], rows := [persona1, persona2] }

/-- Example table whose schema has no program columns at all. -/
def tablaSinProgramas : Table :=
  { programas := [], rows := [persona1, persona2] }

/-- A criteria set naming only a program. -/
def criteriosSoloPrograma : Criterios :=
  { programa_social := some "pension_adultos_mayores" }

/-- A translator accumulator whose age range is already populated. -/
def estadoConRango : EstadoTraduccion :=
  { criterios := { rango_edad := some (0, 12) }
    variables_detectadas := []
    terminos := [] }

/-! ## Helper lemmas -/

/-- Each row has at most three simultaneous deprivations. -/
lemma totalCarencias_le_tres (p : Person) : totalCarencias p ≤ 3 := by
  unfold totalCarencias; split_ifs <;> omega

/-- The four intensity counts partition the subset. -/
lemma cuentas_particion (rows : List Person) :
    cuentaIntensidad rows 0 + cuentaIntensidad rows 1 +
      cuentaIntensidad rows 2 + cuentaIntensidad rows 3 = rows.length := by
  induction rows with
  | nil => rfl
  | cons p rs ih =>
      have h := totalCarencias_le_tres p
      simp only [cuentaIntensidad, List.filter_cons] at ih ⊢
      interval_cases h : totalCarencias p <;> simp_all <;> omega

/-- `round2` moves a rational by at most `1/200`. -/
lemma abs_round2_sub (q : ℚ) : |round2 q - q| ≤ 1 / 200 := by
  unfold round2
  have h := abs_sub_round (q * 100)
  rw [abs_sub_comm] at h
  have heq : ((round (q * 100) : ℤ) : ℚ) / 100 - q =
      (((round (q * 100) : ℤ) : ℚ) - q * 100) / 100 := by ring
  rw [heq, abs_div]
  have : |(100 : ℚ)| = 100 := by norm_num
  rw [this]
  linarith

/-- `round1` of a nonnegative rational is nonnegative. -/
lemma round1_nonneg {q : ℚ} (h : 0 ≤ q) : 0 ≤ round1 q := by
  unfold round1
  have hz : (0 : ℤ) ≤ round (q * 10) := by
    rw [round_eq]
    exact Int.le_floor.mpr (by push_cast; linarith)
  have hq : (0 : ℚ) ≤ ((round (q * 10) : ℤ) : ℚ) := by exact_mod_cast hz
  linarith

/-- `round1` of a rational at most 120 is at most 120. -/
lemma round1_le_120 {q : ℚ} (h : q ≤ 120) : round1 q ≤ 120 := by
  unfold round1
  have h1 : ((round (q * 10) : ℤ) : ℚ) ≤ q * 10 + 1 / 2 := round_le_add_half _
  have h2 : round (q * 10) < 1201 := by
    have : ((round (q * 10) : ℤ) : ℚ) < 1201 := by linarith
    exact_mod_cast this
  have h3 : ((round (q * 10) : ℤ) : ℚ) ≤ 1200 := by
    have : round (q * 10) ≤ 1200 := by omega
    exact_mod_cast this
  linarith

/-- The mean age of a segment of nonnegative ages is nonnegative. -/
lemma mediaEdad_nonneg (rows : List Person)
    (h : ∀ p ∈ rows, 0 ≤ p.edad_persona) : 0 ≤ mediaEdad rows := by
  unfold mediaEdad
  apply div_nonneg _ (by positivity)
  apply List.sum_nonneg
  intro x hx
  obtain ⟨p, hp, rfl⟩ := List.mem_map.mp hx
  exact_mod_cast h p hp

/-- The mean age of a non-empty segment of ages at most 120 is at
most 120. -/
lemma mediaEdad_le_120 (rows : List Person) (hne : rows ≠ [])
    (h : ∀ p ∈ rows, p.edad_persona ≤ 120) : mediaEdad rows ≤ 120 := by
  unfold mediaEdad
  have hlen : 0 < (rows.length : ℚ) := by
    have := List.length_pos.mpr hne
    exact_mod_cast this
  rw [div_le_iff₀ hlen]
  have hsum : (rows.map (fun p => (p.edad_persona : ℚ))).sum ≤
      (rows.map (fun p => (p.edad_persona : ℚ))).length • (120 : ℚ) := by
    apply List.sum_le_card_nsmul
    intro x hx
    obtain ⟨p, hp, rfl⟩ := List.mem_map.mp hx
    exact_mod_cast h p hp
  rw [List.length_map, nsmul_eq_mul] at hsum
  linarith

/-- Membership in `insertByCount` is membership in the inputs. -/
lemma mem_insertByCount {cnt : String → Nat} {x y : String}
    {l : List String} (h : y ∈ insertByCount cnt x l) : y = x ∨ y ∈ l := by
  induction l with
  | nil => simpa [insertByCount] using h
  | cons z zs ih =>
      simp only [insertByCount] at h
      by_cases hc : cnt x ≥ cnt z
      · rw [if_pos hc] at h
        simpa using h
      · rw [if_neg hc] at h
        rcases List.mem_cons.mp h with h1 | h1
        · exact Or.inr (by simp [h1])
        · rcases ih h1 with h2 | h2
          · exact Or.inl h2
          · exact Or.inr (List.mem_cons_of_mem _ h2)

/-- Membership in `sortByCount` is membership in the input. -/
lemma mem_sortByCount {cnt : String → Nat} {y : String} {l : List String}
    (h : y ∈ sortByCount cnt l) : y ∈ l := by
  induction l with
  | nil => simp [sortByCount] at h
  | cons z zs ih =>
      unfold sortByCount at h
      rcases mem_insertByCount h with h1 | h1
      · simp [h1]
      · exact List.mem_cons_of_mem _ (ih h1)

/-- Every entry of the `value_counts` index is a value of the column. -/
lemma mem_of_mem_valueCountsIndex {c : String} {l : List String}
    (h : c ∈ valueCountsIndex l) : c ∈ l :=
  List.mem_dedup.mp (mem_sortByCount h)

/-! ## Claim theorems -/

/-- C1, counterexample: translating the query
"adultos mayores sin pensión" yields the age range [65,100] but NO
program criterion at all — no phrase of the term dictionary matching this
query has the program type (`'pensión adultos mayores'` is not a substring
of the query), so `programa_social` is never set. -/
theorem C1_counterexample :
    (traducirConsultaNatural "adultos mayores sin pensión").criterios_demograficos.rango_edad
        = some (65, 100) ∧
    (traducirConsultaNatural "adultos mayores sin pensión").criterios_demograficos.programa_social
        = none := by
  constructor <;> decide

/-- C1, amended: translating "adultos mayores sin pensión" yields exactly
the criteria {age range [65,100], sort direction "descendente"} — in
particular no reference to the adult-pension program — and translating the
same query twice yields identical criteria, the translation being a pure
function of the query string. -/
theorem C1_traduccion_adultos_mayores :
    (traducirConsultaNatural "adultos mayores sin pensión").criterios_demograficos
        = { rango_edad := some (65, 100), ordenamiento := some "descendente" } ∧
    (traducirConsultaNatural "adultos mayores sin pensión").criterios_demograficos
        = (traducirConsultaNatural "adultos mayores sin pensión").criterios_demograficos := by
  exact ⟨by decide, rfl⟩

/-- C2, counterexample: on a concrete table whose catalog contains the
adult-pension program, base filters keeping nobody (age range [0,5] over
ages 30 and 70) make `analizar_elegibilidad_programa` return the
dictionary `{"error": "No hay personas que cumplan los criterios
especificados"}` — a result containing an `"error"` key, not a zero-valued
report. -/
theorem C2_counterexample :
    aplicarFiltrosBasicos tablaEjemplo (some (0, 5)) none none none = [] ∧
    (analizarElegibilidadPrograma tablaEjemplo "pension_adultos_mayores"
        (some (0, 5)) none none none).esError = true := by
  constructor <;> decide

/-- C2, amended: for every cataloged program and every combination of base
filters under which the filter step yields zero rows, the eligibility
analysis returns the `"error"`-keyed dictionary
`{"error": "No hay personas que cumplan los criterios especificados"}`,
not a zero-valued report. -/
theorem C2_elegibilidad_filtro_vacio (t : Table) (programa : String)
    (rango : Option (Int × Int)) (ubic sexo car : Option String)
    (hprog : t.programas.contains programa = true)
    (hempty : aplicarFiltrosBasicos t rango ubic sexo car = []) :
    analizarElegibilidadPrograma t programa rango ubic sexo car =
      .errorSinPersonas := by
  have hmem : programa ∈ t.programas := by simpa using hprog
  unfold analizarElegibilidadPrograma
  simp [hmem, hempty]

/-- C2, witness: the amended theorem applied to the concrete table. -/
theorem C2_witness :
    tablaEjemplo.programas.contains "pension_adultos_mayores" = true ∧
    aplicarFiltrosBasicos tablaEjemplo (some (0, 5)) none none none = [] ∧
    analizarElegibilidadPrograma tablaEjemplo "pension_adultos_mayores"
        (some (0, 5)) none none none = .errorSinPersonas :=
  ⟨by decide, by decide,
    C2_elegibilidad_filtro_vacio tablaEjemplo "pension_adultos_mayores"
      (some (0, 5)) none none none (by decide) (by decide)⟩

/-- C8: requesting eligibility for a program whose column
`es_elegible_<programa>` does not exist returns the "Programa no
encontrado" error dictionary, whose payload carries the full catalog of
valid program names (and the real column names); no exception is raised,
the error being an ordinary return value. -/
theorem C8_programa_no_encontrado (t : Table) (programa : String)
    (rango : Option (Int × Int)) (ubic sexo car : Option String)
    (h : t.programas.contains programa = false) :
    analizarElegibilidadPrograma t programa rango ubic sexo car =
      .errorProgramaNoEncontrado programa t.programas
        (t.programas.map (fun p => "es_elegible_" ++ p)) := by
  have hmem : programa ∉ t.programas := by simpa using h
  unfold analizarElegibilidadPrograma
  simp [hmem]

/-- C8, witness: an unknown program name on the concrete table returns the
error payload listing the full catalog. -/
theorem C8_witness :
    tablaEjemplo.programas.contains "programa_inexistente" = false ∧
    analizarElegibilidadPrograma tablaEjemplo "programa_inexistente"
        none none none none =
      .errorProgramaNoEncontrado "programa_inexistente"
        ["pension_adultos_mayores"] ["es_elegible_pension_adultos_mayores"] :=
  ⟨by decide,
    C8_programa_no_encontrado tablaEjemplo "programa_inexistente"
      none none none none (by decide)⟩

/-- C9, counterexample: on a concrete table with no program columns, a
criteria set naming only `programa_social = "pension_adultos_mayores"`
makes `aplicar_filtros` return the FULL table — the missing column is
silently skipped and the result is exactly what an empty criteria set
would produce; no error is reported. -/
theorem C9_counterexample :
    tablaSinProgramas.programas.contains "pension_adultos_mayores" = false ∧
    aplicarFiltros tablaSinProgramas criteriosSoloPrograma
      = tablaSinProgramas.rows := by
  constructor <;> decide

/-- C9, amended: when the criteria name a program whose eligibility column
does not exist in the schema, `aplicar_filtros` silently drops the program
criterion: the result is identical to filtering with the same criteria
minus the program entry.  No error value is produced. -/
theorem C9_filtro_programa_silencioso (t : Table) (c : Criterios)
    (programa : String) (hc : c.programa_social = some programa)
    (h : t.programas.contains programa = false) :
    aplicarFiltros t c =
      aplicarFiltros t { c with programa_social := none } := by
  have hcond : condiciones t.programas c =
      condiciones t.programas { c with programa_social := none } := by
    have hmem : programa ∉ t.programas := by simpa using h
    unfold condiciones
    rw [hc]
    simp [hmem]
  unfold aplicarFiltros
  rw [hcond]

/-- C9, witness: the amended theorem applied to the concrete table. -/
theorem C9_witness :
    criteriosSoloPrograma.programa_social = some "pension_adultos_mayores" ∧
    tablaSinProgramas.programas.contains "pension_adultos_mayores" = false ∧
    aplicarFiltros tablaSinProgramas criteriosSoloPrograma =
      aplicarFiltros tablaSinProgramas
        { criteriosSoloPrograma with programa_social := none } :=
  ⟨rfl, by decide,
    C9_filtro_programa_silencioso tablaSinProgramas criteriosSoloPrograma
      "pension_adultos_mayores" rfl (by decide)⟩

/-- C10: the population ranking of the geographic-context section
(`_obtener_ranking_colonia`) looks the supplied location up by exact,
case-sensitive equality against the `colonia` values: whenever the
location string equals no `colonia` cell of the table, the ranking is the
empty dictionary (`none`) — neither a rank nor an error. -/
theorem C10_ranking_colonia_exacto (t : Table) (u : String)
    (h : u ∉ t.rows.map (·.colonia)) :
    obtenerRankingColonia t u = none := by
  unfold obtenerRankingColonia
  have hidx : ∀ c ∈ valueCountsIndex (t.rows.map (·.colonia)),
      (c == u) = false := by
    intro c hc
    have hmem := mem_of_mem_valueCountsIndex hc
    simp only [beq_eq_false_iff_ne]
    rintro rfl
    exact h hmem
  have hnone := List.findIdx?_eq_none_iff.mpr hidx
  simp [hnone]

/-- C10, witness: the lowercase form "a" matches rows of colonia "A" in
the case-insensitive location filter, yet it is not equal to any
`colonia` value, so the ranking comes back empty. -/
theorem C10_witness :
    mascaraUbicacion "a" persona1 = true ∧
    "a" ∉ tablaEjemplo.rows.map (·.colonia) ∧
    obtenerRankingColonia tablaEjemplo "a" = none :=
  ⟨by decide, by decide, C10_ranking_colonia_exacto tablaEjemplo "a" (by decide)⟩

/-- C3, counterexample: in the query "pensión mujeres becas" the
program-type phrases matched are, in evaluation order,
`'pensión mujeres'` (program `pension_mujeres_bienestar`) and then
`'becas'` (program `beca_rita_cetina`); the final criteria carry
`beca_rita_cetina` — the later, shorter phrase REPLACED the value with
which the program category had first been populated, so first-match does
not win for the program category. -/
theorem C3_counterexample :
    programasCoincidentes "pensión mujeres becas"
        = ["pension_mujeres_bienestar", "beca_rita_cetina"] ∧
    (traducirConsultaNatural "pensión mujeres becas").criterios_demograficos.programa_social
        = some "beca_rita_cetina" := by
  constructor <;> decide

/-- C3, amended: the translator evaluates the dictionary phrases as
substring matches against the lowercased query in descending-phrase-length
order, but only the age-range category is first-match-wins (a populated
age range is never overwritten); for the sex and program categories every
later matching phrase overwrites the criterion, so the LAST matching
phrase wins there. -/
theorem C3_orden_y_precedencia :
    ordenadoPorLongitud terminosOrdenados = true ∧
    (∀ (st : EstadoTraduccion) (termino : String) (lo hi : Int)
      (r : Int × Int), st.criterios.rango_edad = some r →
      (aplicarMapeo st termino (.rangoEdad lo hi)).criterios.rango_edad
        = some r) ∧
    (∀ (st : EstadoTraduccion) (termino v : String),
      (aplicarMapeo st termino (.sexoDir v)).criterios.sexo = some v) ∧
    (∀ (st : EstadoTraduccion) (termino v : String),
      (aplicarMapeo st termino (.programa v)).criterios.programa_social
        = some v) := by
  refine ⟨by decide, ?_, ?_, ?_⟩
  · intro st termino lo hi r h
    unfold aplicarMapeo
    simp [h]
  · intro st termino v
    rfl
  · intro st termino v
    rfl

/-- C3, witness: the age-range clause of the amended theorem applied to an
accumulator whose age range [0,12] is already populated — a later phrase
mapping to [31,50] leaves it unchanged. -/
theorem C3_witness :
    estadoConRango.criterios.rango_edad = some (0, 12) ∧
    (aplicarMapeo estadoConRango "adultos" (.rangoEdad 31 50)).criterios.rango_edad
      = some (0, 12) :=
  ⟨rfl, C3_orden_y_precedencia.2.1 estadoConRango "adultos" 31 50 (0, 12) rfl⟩

/-- C4, counterexample: `_agrupar_edades` uses `pd.cut(..., right=False)`,
so the final bin is [75,120) — right-exclusive like the others.  A person
aged exactly 120 is binned to `NaN` (`none`) and disappears from the
cross-tabulation: the grand total over a one-row table is 0, not 1. -/
theorem C4_counterexample :
    agruparEdad 120 = none ∧
    tablaCruzadaEdadSexoTotal [persona120] = 0 := by
  constructor <;> decide

/-- C4, amended: the age bins are [0,18), [18,30), [30,45), [45,60),
[60,75), [75,120) — ALL left-inclusive and right-exclusive, including the
final bin — so each age in [0,120) is assigned to exactly one bin, while
age 120 (and any age outside [0,120)) is assigned no bin and is dropped
from the table. -/
theorem C4_bins_edad :
    (∀ e : Int, agruparEdad e = some "0-17 años" ↔ 0 ≤ e ∧ e < 18) ∧
    (∀ e : Int, agruparEdad e = some "18-29 años" ↔ 18 ≤ e ∧ e < 30) ∧
    (∀ e : Int, agruparEdad e = some "30-44 años" ↔ 30 ≤ e ∧ e < 45) ∧
    (∀ e : Int, agruparEdad e = some "45-59 años" ↔ 45 ≤ e ∧ e < 60) ∧
    (∀ e : Int, agruparEdad e = some "60-74 años" ↔ 60 ≤ e ∧ e < 75) ∧
    (∀ e : Int, agruparEdad e = some "75+ años" ↔ 75 ≤ e ∧ e < 120) ∧
    (∀ e : Int, agruparEdad e = none ↔ e < 0 ∨ 120 ≤ e) := by
  refine ⟨?_, ?_, ?_, ?_, ?_, ?_, ?_⟩ <;> intro e <;>
    simp only [agruparEdad, cutRightFalse, binsEdad, labelsEdad] <;>
    split_ifs <;> simp_all <;> omega

/-- C5, counterexample: the Demographic Profiler returns the EMPTY
dictionary for an empty subset — there is no `edad_promedio` field at all,
rather than a field holding the zero-default 0.0. -/
theorem C5_counterexample : generarPerfilSegmento [] = none := rfl

/-- C5, amended: for every non-empty subset whose ages lie in [0,120], the
profile is present, its mean age is the subset's exact mean age rounded to
one decimal, and it lies within [0,120]; for the empty subset the profiler
returns the empty dictionary (no `edad_promedio` field), not a 0.0
default. -/
theorem C5_edad_promedio (rows : List Person) (hne : rows ≠ [])
    (hedad : ∀ p ∈ rows, 0 ≤ p.edad_persona ∧ p.edad_persona ≤ 120) :
    ∃ perfil, generarPerfilSegmento rows = some perfil ∧
      perfil.edad_promedio = round1 (mediaEdad rows) ∧
      0 ≤ perfil.edad_promedio ∧ perfil.edad_promedio ≤ 120 := by
  have hlen : ¬ rows.length = 0 := by
    simpa using (List.length_pos.mpr hne).ne'
  unfold generarPerfilSegmento
  rw [if_neg hlen]
  refine ⟨_, rfl, rfl, ?_, ?_⟩
  · exact round1_nonneg (mediaEdad_nonneg rows (fun p hp => (hedad p hp).1))
  · exact round1_le_120 (mediaEdad_le_120 rows hne (fun p hp => (hedad p hp).2))

/-- C5, witness: the amended theorem applied to a one-row subset of
age 30. -/
theorem C5_witness :
    ([persona1] ≠ ([] : List Person)) ∧
    (∀ p ∈ [persona1], 0 ≤ p.edad_persona ∧ p.edad_persona ≤ 120) ∧
    ∃ perfil, generarPerfilSegmento [persona1] = some perfil ∧
      perfil.edad_promedio = round1 (mediaEdad [persona1]) ∧
      0 ≤ perfil.edad_promedio ∧ perfil.edad_promedio ≤ 120 :=
  ⟨by decide, by decide, C5_edad_promedio [persona1] (by decide) (by decide)⟩

/-- C6: the Population Filter is idempotent — filtering the full table
with a criteria set `c` and then filtering the resulting subset (same
schema) with the same `c` returns the subset unchanged — and the empty
criteria set returns the full table unchanged, not an error. -/
theorem C6_filtros_idempotentes (t : Table) (c : Criterios) :
    aplicarFiltros { programas := t.programas, rows := aplicarFiltros t c } c
      = aplicarFiltros t c ∧
    aplicarFiltros t {} = t.rows := by
  constructor
  · unfold aplicarFiltros
    by_cases h : (condiciones t.programas c).isEmpty
    · simp [h]
    · simp only [h, if_false, Bool.false_eq_true]
      rw [List.filter_filter]
      apply List.filter_congr
      intro x _
      exact Bool.and_self _
  · rfl

/-- C7, counterexample: an intensity run whose age filter [200,300] keeps
nobody reports all four percentages as 0.0, so they sum to 0, not to 100
within rounding tolerance (the counts still sum to the empty subset's
size 0). -/
theorem C7_counterexample :
    (filtrarIntensidad tablaEjemplo (some (200, 300)) none).length = 0 ∧
    (analizarIntensidadCarencias tablaEjemplo (some (200, 300)) none).sin_carencias.porcentaje +
      (analizarIntensidadCarencias tablaEjemplo (some (200, 300)) none).una_carencia.porcentaje +
      (analizarIntensidadCarencias tablaEjemplo (some (200, 300)) none).dos_carencias.porcentaje +
      (analizarIntensidadCarencias tablaEjemplo (some (200, 300)) none).tres_carencias.porcentaje
      = 0 := by
  have h : (filtrarIntensidad tablaEjemplo (some (200, 300)) none).length = 0 := by
    decide
  exact ⟨h, by simp [analizarIntensidadCarencias, celdaIntensidad, h]⟩

/-- C7, amended: in every intensity run the four reported counts for
0, 1, 2 and 3 simultaneous deprivations sum exactly to the filtered
subset's row count; when the subset is non-empty, the four reported
percentages sum to 100 within rounding tolerance (at most 1/50 away, four
roundings to two decimals); for the empty subset they are all the
zero-default 0.0. -/
theorem C7_intensidad_particion (t : Table) (rango : Option (Int × Int))
    (ubic : Option String) :
    ((analizarIntensidadCarencias t rango ubic).sin_carencias.cantidad +
      (analizarIntensidadCarencias t rango ubic).una_carencia.cantidad +
      (analizarIntensidadCarencias t rango ubic).dos_carencias.cantidad +
      (analizarIntensidadCarencias t rango ubic).tres_carencias.cantidad
      = (filtrarIntensidad t rango ubic).length) ∧
    (0 < (filtrarIntensidad t rango ubic).length →
      |(analizarIntensidadCarencias t rango ubic).sin_carencias.porcentaje +
        (analizarIntensidadCarencias t rango ubic).una_carencia.porcentaje +
        (analizarIntensidadCarencias t rango ubic).dos_carencias.porcentaje +
        (analizarIntensidadCarencias t rango ubic).tres_carencias.porcentaje
        - 100| ≤ 1 / 50) := by
  constructor
  · exact cuentas_particion (filtrarIntensidad t rango ubic)
  · intro h
    unfold analizarIntensidadCarencias celdaIntensidad
    simp only [h, if_pos]
    have hpart := cuentas_particion (filtrarIntensidad t rango ubic)
    have hT : ((filtrarIntensidad t rango ubic).length : ℚ) ≠ 0 := by
      exact_mod_cast h.ne'
    have hsum : tasa (cuentaIntensidad (filtrarIntensidad t rango ubic) 0)
          (filtrarIntensidad t rango ubic).length +
        tasa (cuentaIntensidad (filtrarIntensidad t rango ubic) 1)
          (filtrarIntensidad t rango ubic).length +
        tasa (cuentaIntensidad (filtrarIntensidad t rango ubic) 2)
          (filtrarIntensidad t rango ubic).length +
        tasa (cuentaIntensidad (filtrarIntensidad t rango ubic) 3)
          (filtrarIntensidad t rango ubic).length = 100 := by
      unfold tasa
      field_simp
      push_cast [← hpart]
      ring
    have h0 := abs_le.mp (abs_round2_sub
      (tasa (cuentaIntensidad (filtrarIntensidad t rango ubic) 0)
        (filtrarIntensidad t rango ubic).length))
    have h1 := abs_le.mp (abs_round2_sub
      (tasa (cuentaIntensidad (filtrarIntensidad t rango ubic) 1)
        (filtrarIntensidad t rango ubic).length))
    have h2 := abs_le.mp (abs_round2_sub
      (tasa (cuentaIntensidad (filtrarIntensidad t rango ubic) 2)
        (filtrarIntensidad t rango ubic).length))
    have h3 := abs_le.mp (abs_round2_sub
      (tasa (cuentaIntensidad (filtrarIntensidad t rango ubic) 3)
        (filtrarIntensidad t rango ubic).length))
    rw [abs_le]
    constructor <;> linarith [h0.1, h0.2, h1.1, h1.2, h2.1, h2.2, h3.1, h3.2]

/-- C7, witness: the amended theorem applied to the concrete two-row table
with no filters (non-empty subset). -/
theorem C7_witness :
    ((analizarIntensidadCarencias tablaEjemplo none none).sin_carencias.cantidad +
      (analizarIntensidadCarencias tablaEjemplo none none).una_carencia.cantidad +
      (analizarIntensidadCarencias tablaEjemplo none none).dos_carencias.cantidad +
      (analizarIntensidadCarencias tablaEjemplo none none).tres_carencias.cantidad
      = (filtrarIntensidad tablaEjemplo none none).length) ∧
    |(analizarIntensidadCarencias tablaEjemplo none none).sin_carencias.porcentaje +
      (analizarIntensidadCarencias tablaEjemplo none none).una_carencia.porcentaje +
      (analizarIntensidadCarencias tablaEjemplo none none).dos_carencias.porcentaje +
      (analizarIntensidadCarencias tablaEjemplo none none).tres_carencias.porcentaje
      - 100| ≤ 1 / 50 :=
  ⟨(C7_intensidad_particion tablaEjemplo none none).1,
   (C7_intensidad_particion tablaEjemplo none none).2 (by decide)⟩

end Analizador
